import Mathlib

/-!
# UDP listener probe: shallow embedding and verification

This file embeds the UDP listener probe of `probes/udplistener/udplistener.go`
(receive loop, echo handoff, output loop with reconciliation, stats keeper,
throttled error logging) and settles the specification claims against it.

Conventions of the embedding:
* Go maps keyed by strings become association lists with `mapLookup`/`mapUpdate`.
* `metrics.Int` counters become unbounded `Int` (the claims are about exact
  small deltas; 64-bit overflow plays no role in any of them).
* The wire codec (`udpmessage.NewMessage`) and the flow-state classifier
  (`udpmessage.ProcessOneWay`) live in a package that is not part of the
  source tree here; they are modelled from the spec, and marked as such.
* Stateful Go methods become pure functions from the old state to the new
  state (plus emitted values); channels become lists of queued elements with
  an explicit capacity.
-/

namespace UdpListener

/-- Association-list lookup for Go maps keyed by strings. -/
def mapLookup {α : Type} : List (String × α) → String → Option α
  | [], _ => none
  | (k', v) :: rest, k => if k' = k then some v else mapLookup rest k

/-- Association-list update-or-insert for Go maps keyed by strings. -/
def mapUpdate {α : Type} : List (String × α) → String → α → List (String × α)
  | [], k, v => [(k, v)]
  | (k', v') :: rest, k, v =>
      if k' = k then (k, v) :: rest else (k', v') :: mapUpdate rest k v

/-- Constant `maxTargets` from the source (capacity of the echo channel). -/
def maxTargets : Nat := 1024

/-- Constant `logThrottleThreshold` from the source. -/
def logThrottleThreshold : Int := 10

/-- Structure `probeRunResult` from the source: per-target counters for one window.
`ipdUS` is the inter-packet distance in microseconds. -/
structure ProbeRunResult where
  target : String
  total : Int
  success : Int
  ipdUS : Int
  lost : Int
  delayed : Int
deriving Repr, DecidableEq

/-- A fresh `probeRunResult` as built by `initProbeRunResults`. -/
def ProbeRunResult.init (t : String) : ProbeRunResult :=
  { target := t, total := 0, success := 0, ipdUS := 0, lost := 0, delayed := 0 }

/-- Modelled from the spec: the decoded `Message` view
`{sourceID, sequenceNumber, sendTimestamp}` produced by the wire codec
(`udpmessage.NewMessage`, whose source is not in the tree). Timestamps are
nanoseconds. -/
structure Message where
  src : String
  seq : Int
  txTS : Int
deriving Repr, DecidableEq

/-- Modelled from the spec: per-source `FlowState`
`{previousSequence, lastReceiveTimestamp}` kept by the flow-state map
(`udpmessage.FlowStateMap`, whose source is not in the tree). -/
structure FlowState where
  previousSequence : Int
  lastReceiveTimestamp : Int
deriving Repr, DecidableEq

/-- Classification outcome `ProcessResult` of one message:
`{success, lostCount, delayed, interPktDelay}` (delay in nanoseconds). -/
structure ProcessResult where
  success : Bool
  lostCount : Nat
  delayed : Bool
  interPktDelay : Int
deriving Repr, DecidableEq

/-- Modelled from the spec: `udpmessage`'s `ProcessOneWay` classifier (its
source is not in the tree). Per the spec, with `delta = seq - previousSequence`:
an unseen source records a baseline and returns success; `delta = 1` is
success with the inter-packet delay, advancing the state; `delta > 1` is
`lostCount = delta - 1`, advancing the state; `delta <= 0` is delayed and the
state is not advanced. -/
def processOneWay (fsm : List (String × FlowState)) (m : Message) (rxTS : Int) :
    ProcessResult × List (String × FlowState) :=
  match mapLookup fsm m.src with
  | none =>
      ({ success := true, lostCount := 0, delayed := false, interPktDelay := 0 },
       mapUpdate fsm m.src { previousSequence := m.seq, lastReceiveTimestamp := rxTS })
  | some fs =>
      let delta := m.seq - fs.previousSequence
      if delta = 1 then
        ({ success := true, lostCount := 0, delayed := false,
           interPktDelay := rxTS - fs.lastReceiveTimestamp },
         mapUpdate fsm m.src { previousSequence := m.seq, lastReceiveTimestamp := rxTS })
      else if delta > 1 then
        ({ success := false, lostCount := (delta - 1).toNat, delayed := false,
           interPktDelay := 0 },
         mapUpdate fsm m.src { previousSequence := m.seq, lastReceiveTimestamp := rxTS })
      else
        ({ success := false, lostCount := 0, delayed := true, interPktDelay := 0 }, fsm)

/-- Structure `probeErr` from the source: the throttled-logging state,
`{throttleCt, invalidMsgErrs : addr → error string, missingTargets : sender → count}`. -/
structure ProbeErr where
  throttleCt : Int
  invalidMsgErrs : List (String × String)
  missingTargets : List (String × Int)
deriving Repr, DecidableEq

/-- The mutable probe state shared under `p.mu`:
the per-target results map `res`, the flow-state map `fsm`, and the error
buckets `errs`. -/
structure ProbeState where
  res : List (String × ProbeRunResult)
  fsm : List (String × FlowState)
  errs : ProbeErr
deriving Repr, DecidableEq

/-- A wire codec: decodes a raw byte buffer into a `Message` or fails.
`processMessage` is parametric in it because the codec's byte layout is owned
by the external sender package. -/
def Codec : Type := List Nat → Except String Message

/-- Modelled from the spec: one concrete codec instance, used to evaluate the
theorems on concrete inputs. The spec fixes only that decode yields
`{sourceID, sequenceNumber, sendTimestamp}` or fails explicitly (e.g. buffer
too short); this instance needs at least three bytes and reads the three
fields from them. -/
def decodeModel : Codec := fun buf =>
  match buf with
  | sid :: seqNo :: ts :: _ =>
      Except.ok { src := toString sid, seq := (seqNo : Nat), txTS := (ts : Nat) }
  | _ => Except.error "message too short"

/-- Method `processMessage` from the source: decode the buffer; on failure record the
error keyed by the sender address and drop. On success look up the target's
accumulator by the message's source; if absent count the unknown sender and
drop. Otherwise classify via `processOneWay` and fold the result into the
accumulator: `total++`, then `success++` and `ipdUS += delay/1000` on success,
else `lost += lostCount` when positive, else `delayed++` when delayed.
`Int.tdiv` is Go's truncated integer division. -/
def processMessage (decode : Codec) (st : ProbeState) (buf : List Nat)
    (rxTS : Int) (srcAddr : String) : ProbeState :=
  match decode buf with
  | Except.error e =>
      let errs' := { st.errs with invalidMsgErrs := mapUpdate st.errs.invalidMsgErrs srcAddr e }
      { st with errs := errs' }
  | Except.ok msg =>
      match mapLookup st.res msg.src with
      | none =>
          let ct := ((mapLookup st.errs.missingTargets msg.src).getD 0) + 1
          let errs' := { st.errs with missingTargets := mapUpdate st.errs.missingTargets msg.src ct }
          { st with errs := errs' }
      | some probeRes =>
          let out := processOneWay st.fsm msg rxTS
          let r1 := { probeRes with total := probeRes.total + 1 }
          let r2 :=
            if out.1.success then
              { r1 with success := r1.success + 1, ipdUS := r1.ipdUS + Int.tdiv out.1.interPktDelay 1000 }
            else if out.1.lostCount > 0 then
              { r1 with lost := r1.lost + (out.1.lostCount : Int) }
            else if out.1.delayed then
              { r1 with delayed := r1.delayed + 1 }
            else r1
          { st with res := mapUpdate st.res msg.src r2, fsm := out.2 }

/-! ## Output loop: reconciliation and snapshot emission -/

/-- The per-target body of `outputResults` from the source:
`delta := expectedCt - r.total; if delta > 0 { r.total.IncBy(delta) }`. -/
def reconcile (expectedCt : Int) (r : ProbeRunResult) : ProbeRunResult :=
  let delta := expectedCt - r.total
  if delta > 0 then { r with total := r.total + delta } else r

/-- Method `initProbeRunResults` from the source: rebuild a fresh accumulator map for
the (refreshed) target list. The `maxTargets` warning has no state effect. -/
def initProbeRunResults (targets : List String) : List (String × ProbeRunResult) :=
  targets.map (fun t => (t, ProbeRunResult.init t))

/-- Method `outputResults` from the source: under the lock, reconcile each
accumulator against `expectedCt` and send it on the stats channel, then
rebuild fresh accumulators via `initProbeRunResults`. Returns the emitted
snapshots (in map-iteration order) and the new results map. -/
def outputResults (expectedCt : Int) (res : List (String × ProbeRunResult))
    (targets : List String) : List ProbeRunResult × List (String × ProbeRunResult) :=
  (res.map (fun p => reconcile expectedCt p.2), initProbeRunResults targets)

/-! ## Throttled error logging -/

/-- The content of one consolidated warning flush: the distinct decode errors
keyed by sender address and the unknown-sender counts accumulated since the
last flush. (In the source an empty map produces no log line; the flush
content is the pair of maps at flush time.) -/
structure LogOutput where
  invalid : List (String × String)
  missing : List (String × Int)
deriving Repr, DecidableEq

/-- Method `logErrs` from the source: atomically increment `throttleCt`; unless the
new value is exactly `logThrottleThreshold` (10), return at once. On the 10th
call, under the lock, emit one consolidated warning with both error maps,
clear both maps, and reset the counter to 0. -/
def logErrs (pe : ProbeErr) : ProbeErr × Option LogOutput :=
  let newVal := pe.throttleCt + 1
  if newVal ≠ logThrottleThreshold then
    ({ pe with throttleCt := newVal }, none)
  else
    ({ throttleCt := 0, invalidMsgErrs := [], missingTargets := [] },
     some { invalid := pe.invalidMsgErrs, missing := pe.missingTargets })

/-- One tick of `outputLoop` from the source: call
`outputResults(expectedCt, stats)` and then `logErrs()`. Returns the emitted
snapshots, the optional consolidated warning, and the new probe state. -/
def outputTick (expectedCt : Int) (st : ProbeState) (targets : List String) :
    List ProbeRunResult × Option LogOutput × ProbeState :=
  let out := outputResults expectedCt st.res targets
  let el := logErrs st.errs
  (out.1, el.2, { res := out.2, fsm := st.fsm, errs := el.1 })

/-! ## Receive loop and echo handoff -/

/-- Structure `echoMsg` from the source: the raw bytes and sender address handed from
the receive loop to the echo loop. -/
structure EchoMsg where
  addr : String
  buf : List Nat
deriving Repr, DecidableEq

/-- One iteration of `recvLoop` from the source, after a successful socket
read of `buf` from `srcAddr`. In echo mode the handoff `echoChan <- e` is a
plain send on a buffered channel of capacity `maxTargets` (1024): it enqueues
when the channel has room and otherwise BLOCKS the receive goroutine until
the echo loop drains — modelled as `none` (the iteration cannot complete in
this state). After the handoff, `processMessage` runs. -/
def recvIter (decode : Codec) (echoMode : Bool) (st : ProbeState)
    (chan : List EchoMsg) (buf : List Nat) (rxTS : Int) (srcAddr : String) :
    Option (ProbeState × List EchoMsg) :=
  if echoMode then
    if chan.length < maxTargets then
      some (processMessage decode st buf rxTS srcAddr, chan ++ [{ addr := srcAddr, buf := buf }])
    else
      none
  else
    some (processMessage decode st buf rxTS srcAddr, chan)

/-- The receive-loop iteration as the SPEC's words describe it (for
comparison with `recvIter`): the handoff is non-blocking — if the bounded
channel is full the datagram is dropped for echo purposes and intake
accounting still proceeds. -/
def recvIterSpec (decode : Codec) (echoMode : Bool) (st : ProbeState)
    (chan : List EchoMsg) (buf : List Nat) (rxTS : Int) (srcAddr : String) :
    ProbeState × List EchoMsg :=
  if echoMode ∧ chan.length < maxTargets then
    (processMessage decode st buf rxTS srcAddr, chan ++ [{ addr := srcAddr, buf := buf }])
  else
    (processMessage decode st buf rxTS srcAddr, chan)

/-- One iteration of `echoLoop` from the source: dequeue the next `echoMsg`
and write its bytes back to its sender address (`conn.WriteToUDP(msg.buf,
msg.addr)`). Returns the outbound write (destination address, payload) and
the remaining queue; `none` when the queue is empty (the loop waits). -/
def echoIter (chan : List EchoMsg) : Option ((String × List Nat) × List EchoMsg) :=
  match chan with
  | [] => none
  | m :: rest => some ((m.addr, m.buf), rest)

/-! ## Stats keeper -/

/-- Structure `metrics.EventMetrics` as used by the stats keeper: the five counters
produced by `probeRunResult.Metrics()` plus labels and a timestamp. -/
structure EventMetrics where
  total : Int
  success : Int
  ipdUS : Int
  lost : Int
  delayed : Int
  labels : List (String × String)
  timestamp : Int
deriving Repr, DecidableEq

/-- The five counter values of an `EventMetrics`, without labels/timestamp. -/
def EventMetrics.counters (em : EventMetrics) : Int × Int × Int × Int × Int :=
  (em.total, em.success, em.ipdUS, em.lost, em.delayed)

/-- Method `probeRunResult.Metrics()` from the source: a fresh `EventMetrics`
carrying the snapshot's counters, stamped with the current time, no labels. -/
def prrMetrics (r : ProbeRunResult) (now : Int) : EventMetrics :=
  { total := r.total, success := r.success, ipdUS := r.ipdUS,
    lost := r.lost, delayed := r.delayed, labels := [], timestamp := now }

/-- The `resultsChan` branch of `statsKeeper` from the source: if the target
has no entry yet, store the snapshot's metrics; otherwise add each of the
snapshot's counters into the stored entry (snapshots are deltas, so merges
accumulate). -/
def mergeResult (tm : List (String × EventMetrics)) (r : ProbeRunResult)
    (now : Int) : List (String × EventMetrics) :=
  match mapLookup tm r.target with
  | none => mapUpdate tm r.target (prrMetrics r now)
  | some em =>
      let em' := { em with total := em.total + r.total, success := em.success + r.success,
                           ipdUS := em.ipdUS + r.ipdUS, lost := em.lost + r.lost,
                           delayed := em.delayed + r.delayed }
      mapUpdate tm r.target em'

/-- Method `EventMetrics.AddLabel` of the metrics package: set the label
key to the value. -/
def addLabel (em : EventMetrics) (k v : String) : EventMetrics :=
  { em with labels := mapUpdate em.labels k v }

/-- What the export branch does to one stored entry before forwarding: add
the `ptype`, `probe` and `dst` labels and stamp the tick's timestamp. The
source mutates the STORED `EventMetrics` in place and forwards `em.Clone()`
(a deep copy with equal values). -/
def exportOne (ptype pname : String) (ts : Int) (tname : String)
    (em : EventMetrics) : EventMetrics :=
  { (addLabel (addLabel (addLabel em "ptype" ptype) "probe" pname) "dst" tname) with
      timestamp := ts }

/-- One target's step of the `exportTicker` branch of `statsKeeper` from the
source: if the target has a stored entry, label and timestamp that entry in
place and forward a clone; a target with no entry is skipped. `acc` is the
pair (records forwarded so far, stored map). -/
def exportStep (ptype pname : String) (ts : Int)
    (acc : List (String × EventMetrics) × List (String × EventMetrics))
    (t : String) :
    List (String × EventMetrics) × List (String × EventMetrics) :=
  match mapLookup acc.2 t with
  | none => acc
  | some em =>
      let em' := exportOne ptype pname ts t em
      (acc.1 ++ [(t, em')], mapUpdate acc.2 t em')

/-- The `exportTicker` branch of `statsKeeper` from the source: a fold of
`exportStep` over the currently known targets, starting from no forwarded
records and the stored map. Returns the forwarded records (target, clone) in
target order, and the map as it stands after the branch. -/
def exportTick (ptype pname : String) (ts : Int) (targets : List String)
    (tm : List (String × EventMetrics)) :
    List (String × EventMetrics) × List (String × EventMetrics) :=
  targets.foldl (exportStep ptype pname ts) ([], tm)

/-! ## Concrete states used to evaluate the theorems -/

/-- A probe state with no targets and fresh error buckets. -/
def stEmpty : ProbeState :=
  { res := [], fsm := [],
    errs := { throttleCt := 0, invalidMsgErrs := [], missingTargets := [] } }

/-- A probe state knowing the single target `"7"` (the source id `decodeModel`
assigns to datagrams whose first byte is 7), with fresh accumulators. -/
def stOne : ProbeState :=
  { res := [("7", ProbeRunResult.init "7")],
    fsm := [("7", { previousSequence := 5, lastReceiveTimestamp := 0 })],
    errs := { throttleCt := 0, invalidMsgErrs := [], missingTargets := [] } }

/-- An echo channel filled to its capacity of `maxTargets` messages. -/
def fullChan : List EchoMsg := List.replicate maxTargets { addr := "s", buf := [0] }

/-- A one-window snapshot for target `"t"`: one packet received in order. -/
def snapT : ProbeRunResult :=
  { target := "t", total := 1, success := 1, ipdUS := 0, lost := 0, delayed := 0 }

/-- First stats-keeper export tick after merging one snapshot for `"t"`. -/
def exportRun1 : List (String × EventMetrics) × List (String × EventMetrics) :=
  exportTick "udp" "p" 200 ["t"] (mergeResult [] snapT 100)

/-- Second export tick, after one more snapshot for `"t"` was merged into the
map the first tick left behind. -/
def exportRun2 : List (String × EventMetrics) × List (String × EventMetrics) :=
  exportTick "udp" "p" 400 ["t"] (mergeResult exportRun1.2 snapT 300)

/-! ## Map lemmas -/

theorem mapLookup_update_self {α : Type} (m : List (String × α)) (k : String)
    (v : α) : mapLookup (mapUpdate m k v) k = some v := by
  induction m with
  | nil => simp [mapUpdate, mapLookup]
  | cons p rest ih =>
      obtain ⟨k0, v0⟩ := p
      by_cases h : k0 = k
      · simp [mapUpdate, mapLookup, h]
      · simp [mapUpdate, mapLookup, h, ih]

theorem mapLookup_update_ne {α : Type} (m : List (String × α)) (k k' : String)
    (v : α) (h : k ≠ k') : mapLookup (mapUpdate m k v) k' = mapLookup m k' := by
  induction m with
  | nil => simp [mapUpdate, mapLookup, h]
  | cons p rest ih =>
      obtain ⟨k0, v0⟩ := p
      by_cases h0 : k0 = k
      · subst h0
        simp [mapUpdate, mapLookup, h, fun hc : k0 = k' => h hc]
      · simp [mapUpdate, mapLookup, h0, ih]

/-! ## Reconciliation (claims C2 and C5) -/

theorem reconcile_total_eq_max (E : Int) (r : ProbeRunResult) :
    (reconcile E r).total = max r.total E := by
  simp only [reconcile]
  split
  · simp
    omega
  · simp
    omega

/-- A low-total snapshot used to evaluate the reconciliation theorems:
`total = 2` against an expected count of 5. -/
def snapLow : ProbeRunResult :=
  { target := "t", total := 2, success := 2, ipdUS := 0, lost := 0, delayed := 0 }

/-- C2: at an output tick with expected count `E`, every target accumulator
with observed total `t` is emitted as a snapshot carrying
`total = max t E`: if `t < E` the emitted total is forced up to exactly `E`,
and if `t >= E` the snapshot is emitted unchanged. -/
theorem outputResults_emits_max_total (E : Int)
    (res : List (String × ProbeRunResult)) (targets : List String)
    (t : String) (r : ProbeRunResult) (h : (t, r) ∈ res) :
    reconcile E r ∈ (outputResults E res targets).1
    ∧ (reconcile E r).total = max r.total E
    ∧ (r.total < E → (reconcile E r).total = E)
    ∧ (E ≤ r.total → reconcile E r = r) := by
  refine ⟨?_, reconcile_total_eq_max E r, ?_, ?_⟩
  · simp only [outputResults]
    exact List.mem_map_of_mem (fun p => reconcile E p.2) h
  · intro hlt
    rw [reconcile_total_eq_max]
    omega
  · intro hle
    simp only [reconcile]
    split
    · exfalso
      omega
    · rfl

theorem outputResults_emits_max_total_witness :
    reconcile 5 snapLow ∈ (outputResults 5 [("t", snapLow)] ["t"]).1
    ∧ (reconcile 5 snapLow).total = max snapLow.total 5
    ∧ (snapLow.total < 5 → (reconcile 5 snapLow).total = 5)
    ∧ (5 ≤ snapLow.total → reconcile 5 snapLow = snapLow) :=
  outputResults_emits_max_total 5 [("t", snapLow)] ["t"] "t" snapLow (by decide)

/-- C5: reconciliation only ever touches the `total` counter. For a target
whose observed total is below the expected count, the emitted snapshot keeps
the observed `success`, `lost`, `delayed` and inter-packet-delay values (and
its target name); in particular `lost` is never forced to the deficit. -/
theorem reconcile_only_total (E : Int) (r : ProbeRunResult) (h : r.total < E) :
    (reconcile E r).success = r.success
    ∧ (reconcile E r).lost = r.lost
    ∧ (reconcile E r).delayed = r.delayed
    ∧ (reconcile E r).ipdUS = r.ipdUS
    ∧ (reconcile E r).target = r.target
    ∧ (reconcile E r).total = E := by
  simp only [reconcile]
  split
  · exact ⟨rfl, rfl, rfl, rfl, rfl, by simp⟩
  · exfalso
    omega

theorem reconcile_only_total_witness :
    (reconcile 5 snapLow).success = snapLow.success
    ∧ (reconcile 5 snapLow).lost = snapLow.lost
    ∧ (reconcile 5 snapLow).delayed = snapLow.delayed
    ∧ (reconcile 5 snapLow).ipdUS = snapLow.ipdUS
    ∧ (reconcile 5 snapLow).target = snapLow.target
    ∧ (reconcile 5 snapLow).total = 5 :=
  reconcile_only_total 5 snapLow (by decide)

/-! ## Throttled error logging (claim C6) -/

/-- C6 counterexample: a Receive Loop error event does NOT increment the
throttle counter. Processing a truncated datagram (a decode failure, hence an
error event) leaves `throttleCt` at 0 instead of raising it to 1: the counter
is only touched by `logErrs`, which the output loop calls once per tick. -/
theorem throttleCt_not_incremented_on_error_cex :
    (processMessage decodeModel stEmpty [0] 0 "addr1").errs.throttleCt = 0
    ∧ ¬ ((processMessage decodeModel stEmpty [0] 0 "addr1").errs.throttleCt
          = stEmpty.errs.throttleCt + 1) := by
  decide

/-- C6 (amended): the throttle counter is incremented on every OUTPUT-LOOP
tick — each tick calls `logErrs` after emitting results, and the tick's new
error state and optional warning are exactly those of `logErrs` — not on
every Receive Loop error event. Unless the incremented counter is exactly 10
(`logThrottleThreshold`), `logErrs` only stores the new counter; on exactly
the 10th call it flushes, under the lock, all distinct decode errors and
unknown-sender occurrences accumulated since the last flush (in the source,
one warning line per nonempty map), clears both maps, and resets the counter
to 0. -/
theorem logErrs_tick_threshold_flush (pe : ProbeErr) (E : Int) (st : ProbeState)
    (targets : List String) :
    (pe.throttleCt + 1 = logThrottleThreshold →
       logErrs pe = ({ throttleCt := 0, invalidMsgErrs := [], missingTargets := [] },
                     some { invalid := pe.invalidMsgErrs, missing := pe.missingTargets }))
    ∧ (pe.throttleCt + 1 ≠ logThrottleThreshold →
       logErrs pe = ({ pe with throttleCt := pe.throttleCt + 1 }, none))
    ∧ (outputTick E st targets).2.2.errs = (logErrs st.errs).1
    ∧ (outputTick E st targets).2.1 = (logErrs st.errs).2 := by
  refine ⟨?_, ?_, rfl, rfl⟩
  · intro h
    simp [logErrs, h]
  · intro h
    simp [logErrs, h]

/-- An error state one call away from the flush threshold, holding one decode
error and one unknown-sender count. -/
def pe9 : ProbeErr :=
  { throttleCt := 9, invalidMsgErrs := [("addr1", "bad")], missingTargets := [("s1", 2)] }

theorem logErrs_tick_threshold_flush_witness :
    logErrs pe9 = ({ throttleCt := 0, invalidMsgErrs := [], missingTargets := [] },
                   some { invalid := pe9.invalidMsgErrs, missing := pe9.missingTargets }) :=
  (logErrs_tick_threshold_flush pe9 0 stEmpty []).1 (by decide)

/-! ## Message processing (claims C4, C7, C8, C9) -/

theorem processOneWay_delayed_eq (fsm : List (String × FlowState)) (m : Message)
    (rxTS : Int) (fs : FlowState) (hfs : mapLookup fsm m.src = some fs)
    (hseq : m.seq ≤ fs.previousSequence) :
    processOneWay fsm m rxTS
      = ({ success := false, lostCount := 0, delayed := true, interPktDelay := 0 }, fsm) := by
  simp only [processOneWay, hfs]
  rw [if_neg (by omega), if_neg (by omega)]

theorem processOneWay_signal (fsm : List (String × FlowState)) (m : Message)
    (rxTS : Int) :
    ((processOneWay fsm m rxTS).1.success = true
       ∧ (processOneWay fsm m rxTS).1.lostCount = 0
       ∧ (processOneWay fsm m rxTS).1.delayed = false)
    ∨ ((processOneWay fsm m rxTS).1.success = false
       ∧ 0 < (processOneWay fsm m rxTS).1.lostCount
       ∧ (processOneWay fsm m rxTS).1.delayed = false)
    ∨ ((processOneWay fsm m rxTS).1.success = false
       ∧ (processOneWay fsm m rxTS).1.lostCount = 0
       ∧ (processOneWay fsm m rxTS).1.delayed = true) := by
  cases hfs : mapLookup fsm m.src with
  | none => simp [processOneWay, hfs]
  | some fs =>
      by_cases h1 : m.seq - fs.previousSequence = 1
      · simp [processOneWay, hfs, h1]
      · by_cases h2 : m.seq - fs.previousSequence > 1
        · simp only [processOneWay, hfs]
          rw [if_neg h1, if_pos h2]
          right
          left
          refine ⟨rfl, ?_, rfl⟩
          show 0 < (m.seq - fs.previousSequence - 1).toNat
          omega
        · simp only [processOneWay, hfs]
          rw [if_neg h1, if_neg h2]
          right
          right
          exact ⟨rfl, rfl, rfl⟩

/-- C4: for a source with a recorded baseline, a message whose sequence
number is at most the baseline (`delta <= 0`) classifies as delayed (and not
success, no loss), the flow-state map — hence `previousSequence` — is left
unchanged, and folding the result into the target's accumulator increments
`delayed` by exactly 1 (besides `total`), leaving `success`, `lost` and
`ipdUS` as they were. -/
theorem processMessage_delayed_baseline_preserved (decode : Codec)
    (st : ProbeState) (buf : List Nat) (rxTS : Int) (srcAddr : String)
    (m : Message) (fs : FlowState) (r : ProbeRunResult)
    (hdec : decode buf = Except.ok m)
    (hres : mapLookup st.res m.src = some r)
    (hfs : mapLookup st.fsm m.src = some fs)
    (hseq : m.seq ≤ fs.previousSequence) :
    (processOneWay st.fsm m rxTS).1.delayed = true
    ∧ (processOneWay st.fsm m rxTS).1.success = false
    ∧ (processOneWay st.fsm m rxTS).1.lostCount = 0
    ∧ (processOneWay st.fsm m rxTS).2 = st.fsm
    ∧ (processMessage decode st buf rxTS srcAddr).fsm = st.fsm
    ∧ mapLookup (processMessage decode st buf rxTS srcAddr).res m.src
        = some { r with total := r.total + 1, delayed := r.delayed + 1 } := by
  have hp := processOneWay_delayed_eq st.fsm m rxTS fs hfs hseq
  have hred : processMessage decode st buf rxTS srcAddr
      = { st with res := mapUpdate st.res m.src { r with total := r.total + 1, delayed := r.delayed + 1 }, fsm := st.fsm } := by
    simp [processMessage, hdec, hres, hp]
  refine ⟨by rw [hp], by rw [hp], by rw [hp], by rw [hp], by rw [hred], ?_⟩
  rw [hred]
  exact mapLookup_update_self _ _ _

theorem processMessage_delayed_baseline_preserved_witness :
    (processOneWay stOne.fsm { src := "7", seq := 3, txTS := 0 } 10).1.delayed = true
    ∧ (processOneWay stOne.fsm { src := "7", seq := 3, txTS := 0 } 10).1.success = false
    ∧ (processOneWay stOne.fsm { src := "7", seq := 3, txTS := 0 } 10).1.lostCount = 0
    ∧ (processOneWay stOne.fsm { src := "7", seq := 3, txTS := 0 } 10).2 = stOne.fsm
    ∧ (processMessage decodeModel stOne [7, 3, 0] 10 "a").fsm = stOne.fsm
    ∧ mapLookup (processMessage decodeModel stOne [7, 3, 0] 10 "a").res "7"
        = some { ProbeRunResult.init "7" with total := 1, delayed := 1 } :=
  processMessage_delayed_baseline_preserved decodeModel stOne [7, 3, 0] 10 "a"
    { src := "7", seq := 3, txTS := 0 }
    { previousSequence := 5, lastReceiveTimestamp := 0 }
    (ProbeRunResult.init "7") rfl rfl rfl (by decide)

/-- C7: an accepted message (decoded, known target) increments the target's
`total` by exactly 1 and exactly one of the three outcome counters, matching
the classification: `success` by 1 (also adding the inter-packet delay in
microseconds to `ipdUS`) when the result is success, `lost` by `lostCount`
when `lostCount > 0`, `delayed` by 1 when delayed; each disjunct pins the
other two signals off and the other counters unchanged, so the three
outcomes are mutually exclusive per call. -/
theorem processMessage_accept_exclusive (decode : Codec) (st : ProbeState)
    (buf : List Nat) (rxTS : Int) (srcAddr : String) (m : Message)
    (r : ProbeRunResult) (hdec : decode buf = Except.ok m)
    (hres : mapLookup st.res m.src = some r) :
    ∃ r', mapLookup (processMessage decode st buf rxTS srcAddr).res m.src = some r'
      ∧ r'.total = r.total + 1
      ∧ (((processOneWay st.fsm m rxTS).1.success = true
            ∧ (processOneWay st.fsm m rxTS).1.lostCount = 0
            ∧ (processOneWay st.fsm m rxTS).1.delayed = false
            ∧ r'.success = r.success + 1 ∧ r'.lost = r.lost ∧ r'.delayed = r.delayed
            ∧ r'.ipdUS = r.ipdUS + Int.tdiv (processOneWay st.fsm m rxTS).1.interPktDelay 1000)
         ∨ ((processOneWay st.fsm m rxTS).1.success = false
            ∧ 0 < (processOneWay st.fsm m rxTS).1.lostCount
            ∧ (processOneWay st.fsm m rxTS).1.delayed = false
            ∧ r'.lost = r.lost + ((processOneWay st.fsm m rxTS).1.lostCount : Int)
            ∧ r'.success = r.success ∧ r'.delayed = r.delayed ∧ r'.ipdUS = r.ipdUS)
         ∨ ((processOneWay st.fsm m rxTS).1.success = false
            ∧ (processOneWay st.fsm m rxTS).1.lostCount = 0
            ∧ (processOneWay st.fsm m rxTS).1.delayed = true
            ∧ r'.delayed = r.delayed + 1 ∧ r'.success = r.success ∧ r'.lost = r.lost
            ∧ r'.ipdUS = r.ipdUS)) := by
  rcases processOneWay_signal st.fsm m rxTS with ⟨hs, hl, hd⟩ | ⟨hs, hl, hd⟩ | ⟨hs, hl, hd⟩
  · refine ⟨{ r with total := r.total + 1, success := r.success + 1, ipdUS := r.ipdUS + Int.tdiv (processOneWay st.fsm m rxTS).1.interPktDelay 1000 },
      ?_, rfl, Or.inl ⟨hs, hl, hd, rfl, rfl, rfl, rfl⟩⟩
    simp [processMessage, hdec, hres, hs, mapLookup_update_self]
  · refine ⟨{ r with total := r.total + 1, lost := r.lost + ((processOneWay st.fsm m rxTS).1.lostCount : Int) },
      ?_, rfl, Or.inr (Or.inl ⟨hs, hl, hd, rfl, rfl, rfl, rfl⟩)⟩
    simp [processMessage, hdec, hres, hs, hl, mapLookup_update_self]
  · refine ⟨{ r with total := r.total + 1, delayed := r.delayed + 1 },
      ?_, rfl, Or.inr (Or.inr ⟨hs, hl, hd, rfl, rfl, rfl, rfl⟩)⟩
    simp [processMessage, hdec, hres, hs, hl, hd, mapLookup_update_self]

theorem processMessage_accept_exclusive_witness :
    ∃ r', mapLookup (processMessage decodeModel stOne [7, 6, 0] 10 "a").res "7" = some r'
      ∧ r'.total = (ProbeRunResult.init "7").total + 1
      ∧ (((processOneWay stOne.fsm { src := "7", seq := 6, txTS := 0 } 10).1.success = true
            ∧ (processOneWay stOne.fsm { src := "7", seq := 6, txTS := 0 } 10).1.lostCount = 0
            ∧ (processOneWay stOne.fsm { src := "7", seq := 6, txTS := 0 } 10).1.delayed = false
            ∧ r'.success = (ProbeRunResult.init "7").success + 1
            ∧ r'.lost = (ProbeRunResult.init "7").lost
            ∧ r'.delayed = (ProbeRunResult.init "7").delayed
            ∧ r'.ipdUS = (ProbeRunResult.init "7").ipdUS
                + Int.tdiv (processOneWay stOne.fsm { src := "7", seq := 6, txTS := 0 } 10).1.interPktDelay 1000)
         ∨ ((processOneWay stOne.fsm { src := "7", seq := 6, txTS := 0 } 10).1.success = false
            ∧ 0 < (processOneWay stOne.fsm { src := "7", seq := 6, txTS := 0 } 10).1.lostCount
            ∧ (processOneWay stOne.fsm { src := "7", seq := 6, txTS := 0 } 10).1.delayed = false
            ∧ r'.lost = (ProbeRunResult.init "7").lost
                + ((processOneWay stOne.fsm { src := "7", seq := 6, txTS := 0 } 10).1.lostCount : Int)
            ∧ r'.success = (ProbeRunResult.init "7").success
            ∧ r'.delayed = (ProbeRunResult.init "7").delayed
            ∧ r'.ipdUS = (ProbeRunResult.init "7").ipdUS)
         ∨ ((processOneWay stOne.fsm { src := "7", seq := 6, txTS := 0 } 10).1.success = false
            ∧ (processOneWay stOne.fsm { src := "7", seq := 6, txTS := 0 } 10).1.lostCount = 0
            ∧ (processOneWay stOne.fsm { src := "7", seq := 6, txTS := 0 } 10).1.delayed = true
            ∧ r'.delayed = (ProbeRunResult.init "7").delayed + 1
            ∧ r'.success = (ProbeRunResult.init "7").success
            ∧ r'.lost = (ProbeRunResult.init "7").lost
            ∧ r'.ipdUS = (ProbeRunResult.init "7").ipdUS)) :=
  processMessage_accept_exclusive decodeModel stOne [7, 6, 0] 10 "a"
    { src := "7", seq := 6, txTS := 0 } (ProbeRunResult.init "7") rfl rfl

/-- C8: a successfully decoded message whose source id has no accumulator in
the current target map only increments that source's unknown-sender count:
the results map and the flow-state map are unchanged (no accumulator counter
moves, no `FlowState` entry is created), the decode-error map and the
throttle counter are untouched, and the message is dropped. The condition is
never fatal: `processMessage` is total and the receive loop continues. -/
theorem processMessage_unknown_sender (decode : Codec) (st : ProbeState)
    (buf : List Nat) (rxTS : Int) (srcAddr : String) (m : Message)
    (hdec : decode buf = Except.ok m) (hres : mapLookup st.res m.src = none) :
    (processMessage decode st buf rxTS srcAddr).res = st.res
    ∧ (processMessage decode st buf rxTS srcAddr).fsm = st.fsm
    ∧ mapLookup (processMessage decode st buf rxTS srcAddr).errs.missingTargets m.src
        = some (((mapLookup st.errs.missingTargets m.src).getD 0) + 1)
    ∧ (processMessage decode st buf rxTS srcAddr).errs.invalidMsgErrs = st.errs.invalidMsgErrs
    ∧ (processMessage decode st buf rxTS srcAddr).errs.throttleCt = st.errs.throttleCt := by
  simp [processMessage, hdec, hres, mapLookup_update_self]

theorem processMessage_unknown_sender_witness :
    (processMessage decodeModel stEmpty [7, 6, 0] 10 "a").res = stEmpty.res
    ∧ (processMessage decodeModel stEmpty [7, 6, 0] 10 "a").fsm = stEmpty.fsm
    ∧ mapLookup (processMessage decodeModel stEmpty [7, 6, 0] 10 "a").errs.missingTargets "7"
        = some (((mapLookup stEmpty.errs.missingTargets "7").getD 0) + 1)
    ∧ (processMessage decodeModel stEmpty [7, 6, 0] 10 "a").errs.invalidMsgErrs = stEmpty.errs.invalidMsgErrs
    ∧ (processMessage decodeModel stEmpty [7, 6, 0] 10 "a").errs.throttleCt = stEmpty.errs.throttleCt :=
  processMessage_unknown_sender decodeModel stEmpty [7, 6, 0] 10 "a"
    { src := "7", seq := 6, txTS := 0 } rfl rfl

/-- C9: a raw buffer on which decoding fails is dropped without touching any
accumulator: the results map (in particular every `total` counter) and the
flow-state map are unchanged, the unknown-sender map and the throttle counter
are untouched, and the failure is recorded in the per-sender-address error
map for throttled logging. `processMessage` is a total function, so no input
makes it panic. -/
theorem processMessage_decode_failure (decode : Codec) (st : ProbeState)
    (buf : List Nat) (rxTS : Int) (srcAddr : String) (e : String)
    (hdec : decode buf = Except.error e) :
    (processMessage decode st buf rxTS srcAddr).res = st.res
    ∧ (processMessage decode st buf rxTS srcAddr).fsm = st.fsm
    ∧ mapLookup (processMessage decode st buf rxTS srcAddr).errs.invalidMsgErrs srcAddr = some e
    ∧ (processMessage decode st buf rxTS srcAddr).errs.missingTargets = st.errs.missingTargets
    ∧ (processMessage decode st buf rxTS srcAddr).errs.throttleCt = st.errs.throttleCt := by
  simp [processMessage, hdec, mapLookup_update_self]

theorem processMessage_decode_failure_witness :
    (processMessage decodeModel stOne [0] 0 "a").res = stOne.res
    ∧ (processMessage decodeModel stOne [0] 0 "a").fsm = stOne.fsm
    ∧ mapLookup (processMessage decodeModel stOne [0] 0 "a").errs.invalidMsgErrs "a"
        = some "message too short"
    ∧ (processMessage decodeModel stOne [0] 0 "a").errs.missingTargets = stOne.errs.missingTargets
    ∧ (processMessage decodeModel stOne [0] 0 "a").errs.throttleCt = stOne.errs.throttleCt :=
  processMessage_decode_failure decodeModel stOne [0] 0 "a" "message too short" rfl

/-! ## Receive loop and echo handoff (claims C1 and C10) -/

/-- C1 counterexample: with the bounded echo channel at its capacity of
`maxTargets`, the receive-loop iteration in echo mode BLOCKS on the channel
send (`none`: the iteration cannot complete), so decoding, classification and
accumulator updates for that datagram do NOT proceed — whereas the claim
(embodied by `recvIterSpec`) demands the datagram be dropped for echo
purposes with processing still going ahead. -/
theorem recvIter_full_channel_blocks_cex :
    recvIter decodeModel true stOne fullChan [7, 6, 0] 10 "a" = none
    ∧ recvIterSpec decodeModel true stOne fullChan [7, 6, 0] 10 "a"
        = (processMessage decodeModel stOne [7, 6, 0] 10 "a", fullChan)
    ∧ recvIter decodeModel true stOne fullChan [7, 6, 0] 10 "a"
        ≠ some (recvIterSpec decodeModel true stOne fullChan [7, 6, 0] 10 "a") := by
  have hlen : ¬ (fullChan.length < maxTargets) := by
    simp [fullChan]
  refine ⟨?_, ?_, ?_⟩
  · simp [recvIter, hlen]
  · simp [recvIterSpec, hlen]
  · simp [recvIter, hlen]

/-- C1 (amended): in echo mode the handoff to the echo loop goes over a
bounded channel sized to `maxTargets` (1024) by a plain (blocking) send. When
the channel has room, the datagram (raw bytes and sender address) is enqueued
and decoding, classification and accumulator updates proceed; when the
channel is full, the receive path blocks until the echo loop drains — the
datagram is neither dropped nor processed in that state, so the receive path
CAN stall on echo backpressure. -/
theorem recvIter_echo_handoff_blocking (decode : Codec) (st : ProbeState)
    (chan : List EchoMsg) (buf : List Nat) (rxTS : Int) (srcAddr : String) :
    (chan.length < maxTargets →
       recvIter decode true st chan buf rxTS srcAddr
         = some (processMessage decode st buf rxTS srcAddr, chan ++ [{ addr := srcAddr, buf := buf }]))
    ∧ (maxTargets ≤ chan.length →
       recvIter decode true st chan buf rxTS srcAddr = none) := by
  constructor
  · intro h
    simp [recvIter, h]
  · intro h
    have h' : ¬ (chan.length < maxTargets) := by omega
    simp [recvIter, h']

theorem recvIter_echo_handoff_blocking_witness :
    recvIter decodeModel true stEmpty [] [0] 0 "a"
      = some (processMessage decodeModel stEmpty [0] 0 "a", [{ addr := "a", buf := [0] }]) :=
  (recvIter_echo_handoff_blocking decodeModel stEmpty [] [0] 0 "a").1 (by decide)

/-- C10: in echo mode the receive loop hands the raw datagram to the echo
loop before — and independent of — any decoding or validation: for every
codec and every buffer (in particular one that fails to decode, or one whose
sender is unknown) the enqueued echo message is exactly the read bytes and
the sender address, the same handoff a valid datagram gets; and when the echo
loop reaches that message it writes exactly those bytes back to that sender
address. -/
theorem recvIter_echo_before_decode (decode : Codec) (st : ProbeState)
    (chan : List EchoMsg) (buf : List Nat) (rxTS : Int) (srcAddr : String)
    (h : chan.length < maxTargets) :
    ((recvIter decode true st chan buf rxTS srcAddr).map Prod.snd
        = some (chan ++ [{ addr := srcAddr, buf := buf }]))
    ∧ (∀ rest : List EchoMsg,
        echoIter ({ addr := srcAddr, buf := buf } :: rest) = some ((srcAddr, buf), rest)) := by
  constructor
  · simp [recvIter, h]
  · intro rest
    rfl

theorem recvIter_echo_before_decode_witness :
    ((recvIter decodeModel true stOne [] [0] 0 "a").map Prod.snd
        = some [{ addr := "a", buf := [0] }])
    ∧ echoIter [{ addr := "a", buf := [0] }] = some (("a", [0]), []) :=
  ⟨(recvIter_echo_before_decode decodeModel stOne [] [0] 0 "a" (by decide)).1,
   (recvIter_echo_before_decode decodeModel stOne [] [0] 0 "a" (by decide)).2 []⟩

/-! ## Stats keeper (claim C3) -/

theorem exportOne_counters (ptype pname : String) (ts : Int) (t : String)
    (em : EventMetrics) : (exportOne ptype pname ts t em).counters = em.counters := rfl

theorem exportStep_counters (ptype pname : String) (ts : Int)
    (acc : List (String × EventMetrics) × List (String × EventMetrics))
    (t t0 : String) :
    (mapLookup (exportStep ptype pname ts acc t).2 t0).map EventMetrics.counters
      = (mapLookup acc.2 t0).map EventMetrics.counters := by
  cases h : mapLookup acc.2 t with
  | none => simp [exportStep, h]
  | some em =>
      by_cases ht : t = t0
      · subst ht
        simp [exportStep, h, mapLookup_update_self, exportOne_counters]
      · simp [exportStep, h, mapLookup_update_ne _ _ _ _ ht]

theorem exportFold_counters (ptype pname : String) (ts : Int)
    (targets : List String)
    (acc : List (String × EventMetrics) × List (String × EventMetrics))
    (t0 : String) :
    (mapLookup (targets.foldl (exportStep ptype pname ts) acc).2 t0).map EventMetrics.counters
      = (mapLookup acc.2 t0).map EventMetrics.counters := by
  induction targets generalizing acc with
  | nil => rfl
  | cons t rest ih =>
      rw [List.foldl_cons, ih (exportStep ptype pname ts acc t),
        exportStep_counters]

/-- C3 counterexample: the stats keeper does NOT clear a target's window
accumulation after forwarding it. Concretely: merge a snapshot with
`total = 1` for target `"t"`, export (the first tick forwards `total = 1`),
merge one more `total = 1` snapshot, export again — the second tick forwards
`total = 2`, counting the first window's packet again, where the claim
requires it to forward only the new window's `total = 1`. -/
theorem exportTick_cumulative_cex :
    exportRun1.1.map (fun e => (e.1, e.2.total)) = [("t", 1)]
    ∧ exportRun2.1.map (fun e => (e.1, e.2.total)) = [("t", 2)]
    ∧ ¬ (exportRun2.1.map (fun e => (e.1, e.2.total)) = [("t", 1)]) := by
  decide

/-- C3 (amended): on an export tick the stats keeper forwards, for each known
target with accumulated data, a deep copy of its merged metrics with the
probe-type, probe-name and destination labels attached and the tick's
timestamp stamped — but it does NOT clear the target's accumulation: every
stored counter keeps its value across the export, so later windows merge on
top of it and exported counters are cumulative. -/
theorem exportTick_no_clearing (ptype pname : String) (ts : Int)
    (targets : List String) (tm : List (String × EventMetrics)) (t : String) :
    ((mapLookup (exportTick ptype pname ts targets tm).2 t).map EventMetrics.counters
        = (mapLookup tm t).map EventMetrics.counters)
    ∧ (∀ em, mapLookup tm t = some em →
        (exportTick ptype pname ts [t] tm).1 = [(t, exportOne ptype pname ts t em)]) := by
  constructor
  · exact exportFold_counters ptype pname ts targets ([], tm) t
  · intro em hem
    simp [exportTick, exportStep, hem]

theorem exportTick_no_clearing_witness :
    ((mapLookup (exportTick "udp" "p" 200 ["t"] (mergeResult [] snapT 100)).2 "t").map EventMetrics.counters
        = (mapLookup (mergeResult [] snapT 100) "t").map EventMetrics.counters)
    ∧ (exportTick "udp" "p" 200 ["t"] (mergeResult [] snapT 100)).1
        = [("t", exportOne "udp" "p" 200 "t" (prrMetrics snapT 100))] :=
  ⟨(exportTick_no_clearing "udp" "p" 200 ["t"] (mergeResult [] snapT 100) "t").1,
   (exportTick_no_clearing "udp" "p" 200 ["t"] (mergeResult [] snapT 100) "t").2
     (prrMetrics snapT 100) rfl⟩

end UdpListener
